import Mathlib

/-!
# Verification of the mamacita backend

A shallow embedding, in Lean 4, of the claim-relevant handlers of the
mamacita backend (a REST backend for pregnancy tracking, community,
classes and events), together with theorems settling the frozen claims
about it.

Conventions used throughout:
* JavaScript `Date` values are modelled as integer millisecond
  timestamps (`Int`).  All the arithmetic the handlers perform on dates
  (differences, division by a constant, `Math.floor`) is exact on
  integers, so `Int` with explicit floor division is a faithful model.
* Lean's `/` on `Int` is Euclidean division, which for the positive
  divisors used here coincides with floor division, i.e. with
  `Math.floor` applied to the exact real quotient.
* Database tables are modelled as lists of rows; `findUnique` becomes
  `List.find?` on the key columns, `create` appends a row, `update` by a
  unique key maps the updating function over rows matching that key, and
  `delete` by a unique key filters matching rows out.
* Each handler becomes a function from the relevant database state and
  request data to a result (one constructor per distinct response the
  handler can produce) together with the successor state.
-/

namespace Mamacita

/-! ## Pregnancy week calculator

`src/domains/pregnancy/pregnancy.controller.js`, `calculateCurrentWeek`:

```js
const calculateCurrentWeek = (dueDate) => {
  const now = new Date();
  const due = new Date(dueDate);
  const weeksSinceLMP = 40;
  const millisecondsPerWeek = 7 * 24 * 60 * 60 * 1000;
  const weeksUntilDue = (due - now) / millisecondsPerWeek;
  const currentWeek = Math.floor(weeksSinceLMP - weeksUntilDue);
  return Math.max(1, Math.min(40, currentWeek));
};
```
-/

def millisecondsPerWeek : Int := 7 * 24 * 60 * 60 * 1000

/-- Shallow embedding of `calculateCurrentWeek`.  The implicit `new Date()`
is made an explicit `nowMs` argument.  `Math.floor(40 - (due - now) / W)`
equals `(40 * W - (due - now)) / W` with floor (Euclidean) division, since
`W > 0`. -/
def calculateCurrentWeek (dueMs nowMs : Int) : Int :=
  let weeksSinceLMP : Int := 40
  let currentWeek := (weeksSinceLMP * millisecondsPerWeek - (dueMs - nowMs)) / millisecondsPerWeek
  max 1 (min 40 currentWeek)

/-- The formula exactly as the specification words it: `weeksRemaining =
(dueDate - now) / (7 days)` *rounded down first*, and then
`clamp(40 - weeksRemaining, 1, 40)`.  Kept separate from
`calculateCurrentWeek` so the two can be compared. -/
def specCurrentWeek (dueMs nowMs : Int) : Int :=
  let weeksRemaining := (dueMs - nowMs) / millisecondsPerWeek
  max 1 (min 40 (40 - weeksRemaining))

/-- `40*W - (due - now) = (now - due) + 40*W`, so dividing by `W` pulls the
`40` out of the floor division. -/
lemma calculateCurrentWeek_eq (dueMs nowMs : Int) :
    calculateCurrentWeek dueMs nowMs
      = max 1 (min 40 (40 + (nowMs - dueMs) / millisecondsPerWeek)) := by
  show max 1 (min 40 ((40 * millisecondsPerWeek - (dueMs - nowMs)) / millisecondsPerWeek)) = _
  have h : (40 : Int) * millisecondsPerWeek - (dueMs - nowMs)
      = (nowMs - dueMs) + 40 * millisecondsPerWeek := by ring
  rw [h, Int.add_mul_ediv_right _ _ (by decide : millisecondsPerWeek ≠ 0),
    Int.add_comm]

/-- C1 (counterexample): the claim applies the floor to `weeksRemaining`
before subtracting it from 40, but the code floors the whole expression
`40 - weeksRemaining`.  For a due date exactly half a week (302400000 ms)
after `now`, the code returns 39 while the claim's formula gives 40. -/
theorem calculateCurrentWeek_spec_formula_cex :
    calculateCurrentWeek 302400000 0 = 39 ∧ specCurrentWeek 302400000 0 = 40 ∧
    calculateCurrentWeek 302400000 0 ≠ specCurrentWeek 302400000 0 := by
  decide

/-- C1 (amended): the pregnancy week calculator is a pure function of the
due date and the current time returning
`clamp(floor(40 - (dueDate - now) / (7 days)), 1, 40)` — the floor is
applied to the whole expression `40 - weeksRemaining` (equivalently,
`40 + floor((now - dueDate) / (7 days))`), not to `weeksRemaining` alone;
for a due date exactly 12 weeks from now it returns 28. -/
theorem calculateCurrentWeek_floor_of_difference (dueMs nowMs : Int) :
    calculateCurrentWeek dueMs nowMs
      = max 1 (min 40 (40 + (nowMs - dueMs) / millisecondsPerWeek)) ∧
    calculateCurrentWeek (nowMs + 12 * millisecondsPerWeek) nowMs = 28 := by
  refine ⟨calculateCurrentWeek_eq _ _, ?_⟩
  rw [calculateCurrentWeek_eq]
  have h : (nowMs - (nowMs + 12 * millisecondsPerWeek))
      = (-12) * millisecondsPerWeek := by ring
  rw [h, Int.mul_ediv_cancel _ (by decide : millisecondsPerWeek ≠ 0)]
  decide

/-- C8: for every due date the computed week lies in [1, 40], and for a
fixed due date it is monotonically non-decreasing as `now` advances. -/
theorem calculateCurrentWeek_range_mono (dueMs nowMs nowMs' : Int)
    (h : nowMs ≤ nowMs') :
    1 ≤ calculateCurrentWeek dueMs nowMs ∧
    calculateCurrentWeek dueMs nowMs ≤ 40 ∧
    calculateCurrentWeek dueMs nowMs ≤ calculateCurrentWeek dueMs nowMs' := by
  refine ⟨le_max_left _ _, ?_, ?_⟩
  · rw [calculateCurrentWeek_eq]
    exact max_le (by decide) (min_le_left _ _)
  · rw [calculateCurrentWeek_eq, calculateCurrentWeek_eq]
    have hd : (nowMs - dueMs) / millisecondsPerWeek
        ≤ (nowMs' - dueMs) / millisecondsPerWeek :=
      Int.ediv_le_ediv (by decide) (by omega)
    exact max_le_max le_rfl (min_le_min le_rfl (by omega))

/-- Witness for C8 at concrete times. -/
theorem calculateCurrentWeek_range_mono_witness :
    1 ≤ calculateCurrentWeek 0 0 ∧ calculateCurrentWeek 0 0 ≤ 40 ∧
    calculateCurrentWeek 0 0 ≤ calculateCurrentWeek 0 1000 :=
  calculateCurrentWeek_range_mono 0 0 1000 (by decide)

/-! ## Pregnancy domain state

`createPregnancy` and `updatePregnancy` from
`src/domains/pregnancy/pregnancy.controller.js`. -/

inductive PregStatus
  | active
  | completed
  | lost
deriving DecidableEq, Repr

structure Pregnancy where
  id : Nat
  motherProfileId : Nat
  dueDate : Int
  currentWeek : Int
  status : PregStatus
deriving DecidableEq, Repr

/-- The pregnancy table. -/
structure PregDB where
  rows : List Pregnancy
deriving DecidableEq, Repr

/-- Modelled from the spec: the Prisma schema file (`prisma/schema.prisma`)
is not in the source tree, so the cardinality of the
`motherProfile.pregnancy` relation that
`prisma.motherProfile.findUnique({ include: { pregnancy: true } })`
traverses is unknown.  The spec's data model says a pregnancy "belongs to
exactly one Primary-User profile" and speaks of several pregnancy rows
per profile over time ("never has two rows with status Active for the
same profile"), so the store may hold several rows per profile; the
to-one include that `createPregnancy` dereferences
(`motherProfile.pregnancy.status`) is modelled as returning the
profile's first pregnancy row, if any. -/
def profilePregnancy (db : PregDB) (profileId : Nat) : Option Pregnancy :=
  db.rows.find? (fun p => p.motherProfileId == profileId)

inductive CreatePregResult
  | invalidDueDate
  | conflict
  | created (p : Pregnancy)
deriving DecidableEq, Repr

/-- Shallow embedding of `createPregnancy` (mother role assumed, `dueDate`
present).  `isFutureDate` is `new Date(dueDate) > new Date()`, i.e.
`nowMs < dueMs`; when the looked-up pregnancy exists with status ACTIVE
the handler responds 409 and creates nothing; otherwise it inserts a new
ACTIVE row whose `currentWeek` comes from `calculateCurrentWeek`. -/
def createPregnancy (db : PregDB) (profileId freshId : Nat)
    (dueMs nowMs : Int) : CreatePregResult × PregDB :=
  if nowMs < dueMs then
    match profilePregnancy db profileId with
    | some p =>
      if p.status = .active then (.conflict, db)
      else
        let q : Pregnancy :=
          ⟨freshId, profileId, dueMs, calculateCurrentWeek dueMs nowMs, .active⟩
        (.created q, ⟨db.rows ++ [q]⟩)
    | none =>
      let q : Pregnancy :=
        ⟨freshId, profileId, dueMs, calculateCurrentWeek dueMs nowMs, .active⟩
      (.created q, ⟨db.rows ++ [q]⟩)
  else (.invalidDueDate, db)

/-- `['ACTIVE', 'COMPLETED', 'LOST'].includes(status)`: the status string
is applied only when it parses to one of the three enum values. -/
def parseStatus : String → Option PregStatus
  | "ACTIVE" => some .active
  | "COMPLETED" => some .completed
  | "LOST" => some .lost
  | _ => none

/-- The `updateData` object built by `updatePregnancy`: a present (valid)
due date updates `dueDate` and recomputes `currentWeek`; a present, valid
status string updates `status`; anything else is left unchanged. -/
def applyPregUpdate (dueMs? : Option Int) (status? : Option String)
    (nowMs : Int) (p : Pregnancy) : Pregnancy :=
  let p1 := match dueMs? with
    | some d => { p with dueDate := d, currentWeek := calculateCurrentWeek d nowMs }
    | none => p
  match status?.bind parseStatus with
  | some st => { p1 with status := st }
  | none => p1

inductive UpdatePregResult
  | notFound
  | forbidden
  | invalidDueDate
  | updated (p : Pregnancy)
deriving DecidableEq, Repr

/-- Shallow embedding of `updatePregnancy` (mother role assumed): look the
row up by id, check ownership, validate a present due date, then apply
the update to the row with that id.  Note: no check that another ACTIVE
row exists when the status is set to ACTIVE. -/
def updatePregnancy (db : PregDB) (id requesterProfile : Nat)
    (dueMs? : Option Int) (status? : Option String) (nowMs : Int) :
    UpdatePregResult × PregDB :=
  match db.rows.find? (fun p => p.id == id) with
  | none => (.notFound, db)
  | some p =>
    if p.motherProfileId ≠ requesterProfile then (.forbidden, db)
    else match dueMs? with
      | some d =>
        if ¬ nowMs < d then (.invalidDueDate, db)
        else
          let p' := applyPregUpdate (some d) status? nowMs p
          (.updated p', ⟨db.rows.map (fun q => if q.id == id then p' else q)⟩)
      | none =>
        let p' := applyPregUpdate none status? nowMs p
        (.updated p', ⟨db.rows.map (fun q => if q.id == id then p' else q)⟩)

/-- Number of ACTIVE pregnancy rows a profile has. -/
def activeCount (db : PregDB) (profileId : Nat) : Nat :=
  (db.rows.filter
    (fun p => p.motherProfileId == profileId && p.status == .active)).length

/-- A state reachable from the empty store by: create a pregnancy for
profile 7; mark it COMPLETED; create a second pregnancy for profile 7
(the looked-up first row is COMPLETED, so the 409 guard does not fire). -/
def pregState3 : PregDB :=
  (createPregnancy
    (updatePregnancy
      (createPregnancy ⟨[]⟩ 7 1 (2 * millisecondsPerWeek) 0).2
      1 7 none (some ("COMPLETED")) 0).2
    7 2 (3 * millisecondsPerWeek) 0).2

/-- `pregState3` after `updatePregnancy` sets row 1 back to ACTIVE. -/
def pregState4 : PregDB :=
  (updatePregnancy pregState3 1 7 none (some ("ACTIVE")) 0).2

/-- C2 (counterexample): a reachable state with two ACTIVE pregnancy rows
for the same profile.  `pregState3` (reached from the empty store through
`createPregnancy` and `updatePregnancy` alone) satisfies the at-most-one-
ACTIVE invariant, but `updatePregnancy` with status ACTIVE on its
COMPLETED row yields a state with two ACTIVE rows for profile 7. -/
theorem two_active_pregnancies_reachable :
    activeCount pregState3 7 = 1 ∧ activeCount pregState4 7 = 2 := by
  decide

/-- C2 (amended): `createPregnancy` rejects with 409 Conflict, creating
nothing, whenever the pregnancy row looked up for the profile has status
ACTIVE; but the at-most-one-ACTIVE invariant is not preserved by every
operation — `updatePregnancy` applies a status change without re-checking,
so a state with two ACTIVE rows for one profile is reachable. -/
theorem createPregnancy_conflict_on_active (db : PregDB)
    (profileId freshId : Nat) (dueMs nowMs : Int) (p : Pregnancy)
    (hfut : nowMs < dueMs)
    (hp : profilePregnancy db profileId = some p)
    (hact : p.status = .active) :
    createPregnancy db profileId freshId dueMs nowMs = (.conflict, db) := by
  simp [createPregnancy, hp, hact, hfut]

/-- Witness for the amended C2 theorem at a concrete store. -/
theorem createPregnancy_conflict_on_active_witness :
    createPregnancy ⟨[⟨1, 7, 604800000, 39, .active⟩]⟩ 7 2 604800000 0
      = (.conflict, ⟨[⟨1, 7, 604800000, 39, .active⟩]⟩) :=
  createPregnancy_conflict_on_active _ _ _ _ _ ⟨1, 7, 604800000, 39, .active⟩
    (by decide) (by decide) rfl

/-! ## Events domain

`registerForEvent` and `cancelRegistration` from
`src/domains/events/events.controller.js`. -/

inductive RegStatus
  | registered
  | waitlist
  | cancelled
deriving DecidableEq, Repr

structure EventRegistration where
  eventId : Nat
  userId : Nat
  status : RegStatus
  cancelledAt : Option Int
deriving DecidableEq, Repr

structure Event where
  id : Nat
  isPublished : Bool
  capacity : Option Int
  waitlistEnabled : Bool
deriving DecidableEq, Repr

structure EventsDB where
  events : List Event
  registrations : List EventRegistration
deriving DecidableEq, Repr

/-- `prisma.event.findUnique({ where: { id, isPublished: true } })`. -/
def findEvent (db : EventsDB) (id : Nat) : Option Event :=
  db.events.find? (fun e => e.id == id && e.isPublished)

/-- `prisma.eventRegistration.findUnique` on the composite key
`eventId_userId`; note it matches any status. -/
def findRegistration (db : EventsDB) (eventId userId : Nat) :
    Option EventRegistration :=
  db.registrations.find? (fun r => r.eventId == eventId && r.userId == userId)

/-- The `_count` of registrations with `status: 'REGISTERED'`. -/
def registeredCount (db : EventsDB) (eventId : Nat) : Nat :=
  (db.registrations.filter
    (fun r => r.eventId == eventId && r.status == .registered)).length

/-- JavaScript truthiness of `event.capacity` in
`if (event.capacity && registeredCount >= event.capacity)`:
a missing (null) capacity and a 0 capacity are both falsy. -/
def capacityTruthy : Option Int → Bool
  | none => false
  | some c => c != 0

inductive RegisterResult
  | eventNotFound
  | alreadyRegistered
  | eventFull
  | created (r : EventRegistration)
deriving DecidableEq, Repr

/-- Shallow embedding of `registerForEvent` (mother role assumed): look
the published event up, reject 409 if any registration row exists for
(event, user), then choose the status by comparing the REGISTERED count
with the capacity, and insert the new row. -/
def registerForEvent (db : EventsDB) (eventId userId : Nat) :
    RegisterResult × EventsDB :=
  match findEvent db eventId with
  | none => (.eventNotFound, db)
  | some e =>
    match findRegistration db eventId userId with
    | some _ => (.alreadyRegistered, db)
    | none =>
      if capacityTruthy e.capacity
          ∧ e.capacity.getD 0 ≤ (registeredCount db eventId : Int) then
        if e.waitlistEnabled then
          (.created ⟨eventId, userId, .waitlist, none⟩,
           ⟨db.events, db.registrations ++ [⟨eventId, userId, .waitlist, none⟩]⟩)
        else (.eventFull, db)
      else
        (.created ⟨eventId, userId, .registered, none⟩,
         ⟨db.events, db.registrations ++ [⟨eventId, userId, .registered, none⟩]⟩)

inductive CancelResult
  | notRegistered
  | cancelled
deriving DecidableEq, Repr

/-- The `data` of the `prisma.eventRegistration.update` issued by
`cancelRegistration`, applied to the row matching the composite key. -/
def cancelUpdate (eventId userId : Nat) (nowMs : Int)
    (r : EventRegistration) : EventRegistration :=
  if r.eventId == eventId && r.userId == userId then
    { r with status := .cancelled, cancelledAt := some nowMs }
  else r

/-- Shallow embedding of `cancelRegistration` (mother role assumed): if a
registration row exists for (event, user) it is updated — not deleted —
to status CANCELLED with `cancelledAt` set. -/
def cancelRegistration (db : EventsDB) (eventId userId : Nat) (nowMs : Int) :
    CancelResult × EventsDB :=
  match findRegistration db eventId userId with
  | none => (.notRegistered, db)
  | some _ =>
    (.cancelled,
     ⟨db.events, db.registrations.map (cancelUpdate eventId userId nowMs)⟩)

/-- `cancelUpdate` changes neither key column, so the composite-key match
predicate is unchanged by it. -/
lemma cancelUpdate_pres (eid uid : Nat) (nowMs : Int) (x : EventRegistration) :
    ((cancelUpdate eid uid nowMs x).eventId == eid
      && (cancelUpdate eid uid nowMs x).userId == uid)
      = (x.eventId == eid && x.userId == uid) := by
  unfold cancelUpdate
  split <;> rfl

/-- C3 (counterexample): an event with the finite capacity 0, waitlist
disabled, and 0 ≥ 0 registered rows.  The claim demands a 400 rejection,
but `0` is JavaScript-falsy, so `if (event.capacity && ...)` skips the
capacity check entirely and the handler registers the user with status
REGISTERED. -/
theorem registerForEvent_zero_capacity_cex :
    findEvent ⟨[⟨1, true, some 0, false⟩], []⟩ 1 = some ⟨1, true, some 0, false⟩ ∧
    findRegistration ⟨[⟨1, true, some 0, false⟩], []⟩ 1 5 = none ∧
    (0 : Int) ≤ (registeredCount ⟨[⟨1, true, some 0, false⟩], []⟩ 1 : Int) ∧
    registerForEvent ⟨[⟨1, true, some 0, false⟩], []⟩ 1 5
      = (.created ⟨1, 5, .registered, none⟩,
         ⟨[⟨1, true, some 0, false⟩], [⟨1, 5, .registered, none⟩]⟩) := by
  decide

/-- C3 (amended): for every published event with a *positive* finite
capacity and every registration by a user not already registered: at or
above capacity the request is rejected when the waitlist is disabled and
yields a WAITLIST row when it is enabled; below capacity the created row
has status REGISTERED. -/
theorem registerForEvent_capacity_policy (db : EventsDB) (eid uid : Nat)
    (e : Event) (c : Int)
    (he : findEvent db eid = some e)
    (hc : e.capacity = some c) (hcpos : 0 < c)
    (hnr : findRegistration db eid uid = none) :
    ((c ≤ (registeredCount db eid : Int)) → e.waitlistEnabled = false →
        registerForEvent db eid uid = (.eventFull, db)) ∧
    ((c ≤ (registeredCount db eid : Int)) → e.waitlistEnabled = true →
        registerForEvent db eid uid
          = (.created ⟨eid, uid, .waitlist, none⟩,
             ⟨db.events, db.registrations ++ [⟨eid, uid, .waitlist, none⟩]⟩)) ∧
    (((registeredCount db eid : Int) < c) →
        registerForEvent db eid uid
          = (.created ⟨eid, uid, .registered, none⟩,
             ⟨db.events,
              db.registrations ++ [⟨eid, uid, .registered, none⟩]⟩)) := by
  have hcap : capacityTruthy e.capacity = true := by
    rw [hc]; simp only [capacityTruthy, bne_iff_ne, ne_eq]; omega
  refine ⟨fun h1 h2 => ?_, fun h1 h2 => ?_, fun h1 => ?_⟩ <;>
    simp only [registerForEvent, he, hnr]
  · rw [if_pos ⟨hcap, by rw [hc]; simpa using h1⟩, if_neg (by simp [h2])]
  · rw [if_pos ⟨hcap, by rw [hc]; simpa using h1⟩, if_pos h2]
  · rw [if_neg (fun hh => by rw [hc] at hh; simp at hh; omega)]

/-- Witness for the amended C3 theorem: a capacity-1 event already
holding one REGISTERED row, waitlist disabled, rejects a new user. -/
theorem registerForEvent_capacity_policy_witness :
    registerForEvent
        ⟨[⟨1, true, some 1, false⟩], [⟨1, 9, .registered, none⟩]⟩ 1 5
      = (.eventFull, ⟨[⟨1, true, some 1, false⟩], [⟨1, 9, .registered, none⟩]⟩) :=
  (registerForEvent_capacity_policy
      ⟨[⟨1, true, some 1, false⟩], [⟨1, 9, .registered, none⟩]⟩ 1 5
      ⟨1, true, some 1, false⟩ 1 (by decide) rfl (by decide) (by decide)).1
    (by decide) rfl

/-- C9: cancelling keeps the registration row (same row count, status set
to CANCELLED), and because `registerForEvent`'s duplicate check matches
any (event, user) row regardless of status, a subsequent registration
attempt by the same user for the same (still published) event responds
409 Conflict and changes nothing. -/
theorem cancel_then_reregister_conflict (db : EventsDB) (eid uid : Nat)
    (nowMs : Int) (e : Event) (r : EventRegistration)
    (he : findEvent db eid = some e)
    (hr : findRegistration db eid uid = some r) :
    (cancelRegistration db eid uid nowMs).1 = .cancelled ∧
    ((cancelRegistration db eid uid nowMs).2).registrations.length
      = db.registrations.length ∧
    findRegistration (cancelRegistration db eid uid nowMs).2 eid uid
      = some { r with status := .cancelled, cancelledAt := some nowMs } ∧
    registerForEvent (cancelRegistration db eid uid nowMs).2 eid uid
      = (.alreadyRegistered, (cancelRegistration db eid uid nowMs).2) := by
  have hr' : db.registrations.find?
      (fun x => x.eventId == eid && x.userId == uid) = some r := hr
  have hpr : (r.eventId == eid && r.userId == uid) = true :=
    List.find?_some (p := fun x : EventRegistration =>
      x.eventId == eid && x.userId == uid) hr'
  have hstep : cancelRegistration db eid uid nowMs
      = (.cancelled,
         ⟨db.events, db.registrations.map (cancelUpdate eid uid nowMs)⟩) := by
    unfold cancelRegistration
    rw [hr]
  have hupd_r : cancelUpdate eid uid nowMs r
      = { r with status := .cancelled, cancelledAt := some nowMs } := by
    unfold cancelUpdate
    rw [if_pos hpr]
  have hcomp : ((fun x : EventRegistration => x.eventId == eid && x.userId == uid)
      ∘ cancelUpdate eid uid nowMs)
      = (fun x : EventRegistration => x.eventId == eid && x.userId == uid) :=
    funext (cancelUpdate_pres eid uid nowMs)
  have hfind' : findRegistration (cancelRegistration db eid uid nowMs).2 eid uid
      = some { r with status := .cancelled, cancelledAt := some nowMs } := by
    rw [hstep]
    show (db.registrations.map (cancelUpdate eid uid nowMs)).find?
        (fun x => x.eventId == eid && x.userId == uid) = _
    rw [List.find?_map, hcomp, hr']
    simp [hupd_r]
  refine ⟨by rw [hstep], by rw [hstep]; simp, hfind', ?_⟩
  have he' : findEvent
      ⟨db.events, db.registrations.map (cancelUpdate eid uid nowMs)⟩ eid
      = some e := he
  rw [hstep]
  rw [hstep] at hfind'
  unfold registerForEvent
  rw [he', hfind']

/-- Witness for C9 at a concrete store: one published event, one
REGISTERED row; cancel then re-register. -/
theorem cancel_then_reregister_conflict_witness :
    (cancelRegistration ⟨[⟨1, true, none, false⟩],
        [⟨1, 5, .registered, none⟩]⟩ 1 5 100).1 = .cancelled ∧
    ((cancelRegistration ⟨[⟨1, true, none, false⟩],
        [⟨1, 5, .registered, none⟩]⟩ 1 5 100).2).registrations.length
      = (⟨[⟨1, true, none, false⟩],
          [⟨1, 5, .registered, none⟩]⟩ : EventsDB).registrations.length ∧
    findRegistration (cancelRegistration ⟨[⟨1, true, none, false⟩],
        [⟨1, 5, .registered, none⟩]⟩ 1 5 100).2 1 5
      = some ⟨1, 5, .cancelled, some 100⟩ ∧
    registerForEvent (cancelRegistration ⟨[⟨1, true, none, false⟩],
        [⟨1, 5, .registered, none⟩]⟩ 1 5 100).2 1 5
      = (.alreadyRegistered, (cancelRegistration ⟨[⟨1, true, none, false⟩],
          [⟨1, 5, .registered, none⟩]⟩ 1 5 100).2) :=
  cancel_then_reregister_conflict
    ⟨[⟨1, true, none, false⟩], [⟨1, 5, .registered, none⟩]⟩ 1 5 100
    ⟨1, true, none, false⟩ ⟨1, 5, .registered, none⟩ (by decide) (by decide)

/-! ## Community reactions

`toggleReaction` from `src/domains/community/community.routes.js`. -/

/-- The reaction row of the `Reaction` table; `type` is the reaction type
string. -/
structure Reaction where
  postId : Nat
  userId : Nat
  type : String
deriving DecidableEq, Repr

/-- The accepted reaction type strings:
`['HEART', 'SUPPORT', 'CELEBRATE'].includes(type)`. -/
def validReactionTypes : List String := ["HEART", "SUPPORT", "CELEBRATE"]

/-- `prisma.reaction.findUnique` on the composite key `postId_userId` —
the type column plays no part in the lookup. -/
def findReaction (rs : List Reaction) (postId userId : Nat) :
    Option Reaction :=
  rs.find? (fun r => r.postId == postId && r.userId == userId)

inductive ToggleResult
  | invalidType
  | removed
  | added (r : Reaction)
deriving DecidableEq, Repr

/-- Shallow embedding of `toggleReaction` (mother role assumed): reject an
invalid type string; if any reaction row exists for (post, user), delete
it (regardless of its stored type); otherwise insert a row carrying the
given type. -/
def toggleReaction (rs : List Reaction) (postId userId : Nat)
    (ty : String) : ToggleResult × List Reaction :=
  if ¬ validReactionTypes.contains ty then (.invalidType, rs)
  else match findReaction rs postId userId with
    | some _ =>
      (.removed, rs.filter (fun r => !(r.postId == postId && r.userId == userId)))
    | none => (.added ⟨postId, userId, ty⟩, rs ++ [⟨postId, userId, ty⟩])

/-- C4 (counterexample): with an existing HEART reaction by user 2 on
post 1, toggling twice with type SUPPORT does not restore the original
set of reaction rows: the first call removes the HEART row and the second
inserts a SUPPORT row. -/
theorem toggleReaction_roundtrip_cex :
    (toggleReaction [⟨1, 2, "HEART"⟩] 1 2 ("SUPPORT")).1 = .removed ∧
    (toggleReaction (toggleReaction [⟨1, 2, "HEART"⟩] 1 2 ("SUPPORT")).2
        1 2 ("SUPPORT")).2 = [⟨1, 2, "SUPPORT"⟩] ∧
    ([⟨1, 2, "SUPPORT"⟩] : List Reaction) ≠ [⟨1, 2, "HEART"⟩] := by
  decide

/-- C4 (amended): for a user with *no existing reaction row* on the post,
toggling twice with the same valid type returns the reaction state to
exactly what it was: the first call creates the (post, user) row and the
second call deletes it.  (With an existing row of a different type the
round-trip fails: the pair of calls replaces the stored type.) -/
theorem toggleReaction_roundtrip_fresh (rs : List Reaction) (pid uid : Nat)
    (ty : String)
    (hfresh : findReaction rs pid uid = none)
    (hty : validReactionTypes.contains ty = true) :
    (toggleReaction rs pid uid ty).1 = .added ⟨pid, uid, ty⟩ ∧
    (toggleReaction (toggleReaction rs pid uid ty).2 pid uid ty).1 = .removed ∧
    (toggleReaction (toggleReaction rs pid uid ty).2 pid uid ty).2 = rs := by
  have hall : ∀ x ∈ rs, (x.postId == pid && x.userId == uid) = false := by
    have h := List.find?_eq_none.mp hfresh
    intro x hx
    simpa using h x hx
  have h1 : toggleReaction rs pid uid ty
      = (.added ⟨pid, uid, ty⟩, rs ++ [⟨pid, uid, ty⟩]) := by
    unfold toggleReaction
    rw [if_neg (not_not_intro hty), hfresh]
  have hfind2 : findReaction (rs ++ [⟨pid, uid, ty⟩]) pid uid
      = some ⟨pid, uid, ty⟩ := by
    show List.find? _ _ = _
    rw [List.find?_append]
    have hn : rs.find? (fun r => r.postId == pid && r.userId == uid) = none :=
      hfresh
    rw [hn]
    simp
  have h2 : toggleReaction (rs ++ [⟨pid, uid, ty⟩]) pid uid ty
      = (.removed, (rs ++ [Reaction.mk pid uid ty]).filter
          (fun r => !(r.postId == pid && r.userId == uid))) := by
    unfold toggleReaction
    rw [if_neg (not_not_intro hty), hfind2]
  have hfilter : (rs ++ [Reaction.mk pid uid ty]).filter
      (fun r => !(r.postId == pid && r.userId == uid)) = rs := by
    rw [List.filter_append]
    have h4 : rs.filter (fun r => !(r.postId == pid && r.userId == uid)) = rs :=
      List.filter_eq_self.mpr (fun a ha => by rw [hall a ha]; rfl)
    have h5 : ([⟨pid, uid, ty⟩] : List Reaction).filter
        (fun r => !(r.postId == pid && r.userId == uid)) = [] := by
      simp
    rw [h4, h5, List.append_nil]
  refine ⟨by rw [h1], ?_, ?_⟩
  · rw [h1]
    show (toggleReaction (rs ++ [⟨pid, uid, ty⟩]) pid uid ty).1 = _
    rw [h2]
  · rw [h1]
    show (toggleReaction (rs ++ [⟨pid, uid, ty⟩]) pid uid ty).2 = _
    rw [h2]
    exact hfilter

/-- Witness for the amended C4 theorem: empty store, toggle HEART twice. -/
theorem toggleReaction_roundtrip_fresh_witness :
    (toggleReaction [] 1 2 ("HEART")).1 = .added ⟨1, 2, "HEART"⟩ ∧
    (toggleReaction (toggleReaction [] 1 2 ("HEART")).2 1 2 ("HEART")).1
      = .removed ∧
    (toggleReaction (toggleReaction [] 1 2 ("HEART")).2 1 2 ("HEART")).2
      = [] :=
  toggleReaction_roundtrip_fresh [] 1 2 ("HEART") rfl (by decide)

/-- Number of reaction rows for a (post, user) pair. -/
def reactionCountFor (rs : List Reaction) (pid uid : Nat) : Nat :=
  (rs.filter (fun r => r.postId == pid && r.userId == uid)).length

/-- At most one reaction row per (post, user) pair — the unique
constraint on the composite key `postId_userId`. -/
def atMostOnePerUser (rs : List Reaction) : Prop :=
  ∀ pid uid, reactionCountFor rs pid uid ≤ 1

/-- C10: `toggleReaction` preserves the at-most-one-row-per-(post, user)
invariant, and its lookup ignores the type column: when any row exists
for (post, user) — whatever type it stores — a toggle carrying a valid
type removes the existing reaction (rather than replacing it or adding a
second one), leaving no row for the pair. -/
theorem toggleReaction_unique_type_blind (rs : List Reaction)
    (pid uid : Nat) (ty : String) (hinv : atMostOnePerUser rs) :
    atMostOnePerUser (toggleReaction rs pid uid ty).2 ∧
    (∀ r, findReaction rs pid uid = some r →
      validReactionTypes.contains ty = true →
      (toggleReaction rs pid uid ty).1 = .removed ∧
      findReaction (toggleReaction rs pid uid ty).2 pid uid = none) := by
  by_cases hty : validReactionTypes.contains ty = true
  case neg =>
    have heq : toggleReaction rs pid uid ty = (.invalidType, rs) := by
      unfold toggleReaction
      rw [if_pos hty]
    exact ⟨by rw [heq]; exact hinv, fun r _ hty2 => absurd hty2 hty⟩
  case pos =>
    cases hf : findReaction rs pid uid with
    | some r =>
      have heq : toggleReaction rs pid uid ty
          = (.removed, rs.filter
              (fun x => !(x.postId == pid && x.userId == uid))) := by
        unfold toggleReaction
        rw [if_neg (not_not_intro hty), hf]
      constructor
      · intro pid' uid'
        rw [heq]
        have hsub : List.Sublist
            ((rs.filter (fun x => !(x.postId == pid && x.userId == uid))).filter
              (fun x => x.postId == pid' && x.userId == uid'))
            (rs.filter (fun x => x.postId == pid' && x.userId == uid')) :=
          List.Sublist.filter _ (List.filter_sublist rs)
        exact le_trans (List.Sublist.length_le hsub) (hinv pid' uid')
      · intro r' _ _
        refine ⟨by rw [heq], ?_⟩
        rw [heq]
        show List.find? _ _ = none
        rw [List.find?_eq_none]
        intro x hx
        have hmem := (List.mem_filter.mp hx).2
        simp only [Bool.not_eq_eq_eq_not, Bool.not_true] at hmem
        simp [hmem]
    | none =>
      have heq : toggleReaction rs pid uid ty
          = (.added ⟨pid, uid, ty⟩, rs ++ [Reaction.mk pid uid ty]) := by
        unfold toggleReaction
        rw [if_neg (not_not_intro hty), hf]
      constructor
      · intro pid' uid'
        rw [heq]
        unfold reactionCountFor
        rw [List.filter_append]
        by_cases hq : ((Reaction.mk pid uid ty).postId == pid'
            && (Reaction.mk pid uid ty).userId == uid') = true
        · have hpid : pid = pid' ∧ uid = uid' := by simpa using hq
          obtain ⟨h1, h2⟩ := hpid
          subst h1
          subst h2
          have hzero : rs.filter
              (fun x => x.postId == pid && x.userId == uid) = [] := by
            rw [List.filter_eq_nil_iff]
            intro a ha
            simpa using List.find?_eq_none.mp hf a ha
          simp [hzero]
        · have hnil : ([Reaction.mk pid uid ty] : List Reaction).filter
              (fun x => x.postId == pid' && x.userId == uid') = [] := by
            simp only [List.filter_eq_nil_iff, List.mem_singleton]
            intro a ha
            subst ha
            simp only [hq]
            exact Bool.false_ne_true
          rw [hnil, List.append_nil]
          exact hinv pid' uid'
      · intro r' hf' _
        cases hf'

/-- Witness for C10: a store holding one HEART row for (post 1, user 2),
toggled with the different valid type SUPPORT. -/
theorem toggleReaction_unique_type_blind_witness :
    atMostOnePerUser (toggleReaction [⟨1, 2, "HEART"⟩] 1 2 ("SUPPORT")).2 ∧
    (∀ r, findReaction [⟨1, 2, "HEART"⟩] 1 2 = some r →
      validReactionTypes.contains ("SUPPORT") = true →
      (toggleReaction [⟨1, 2, "HEART"⟩] 1 2 ("SUPPORT")).1 = .removed ∧
      findReaction (toggleReaction [⟨1, 2, "HEART"⟩] 1 2 ("SUPPORT")).2 1 2
        = none) :=
  toggleReaction_unique_type_blind [⟨1, 2, "HEART"⟩] 1 2 ("SUPPORT")
    (by intro pid uid; unfold reactionCountFor; simp [List.filter]; split <;> simp)

/-! ## Accounts and the authentication gate

The account row of the `User` table (claim-relevant columns), shared by
the authentication middleware (`src/middleware/auth.js`) and the auth
controller (`register` / `login`). -/

structure Account where
  id : Nat
  email : String
  passwordHash : String
  role : String
deriving DecidableEq, Repr

/-- The claims `generateToken` embeds and `verifyToken` returns;
`authenticate` uses only `userId`. -/
structure TokenPayload where
  userId : Nat
  email : String
  role : String
deriving DecidableEq, Repr

/-- What a successful `authenticate` attaches to the request:
`req.user`, `req.userId` and `req.userRole`. -/
structure AuthContext where
  user : Account
  userId : Nat
  userRole : String
deriving DecidableEq, Repr

/-- Outcome of the middleware: a 401 response (the downstream handler is
not invoked), or `next()` with the attached context. -/
inductive AuthResult
  | unauthenticated (message : String)
  | authenticated (ctx : AuthContext)
deriving DecidableEq, Repr

/-- `authHeader.startsWith('Bearer ')`, written on character lists so
that it evaluates inside the kernel (Lean's `String.startsWith` is a
byte-level primitive that concrete evaluation cannot reduce). -/
def strStartsWith (s pre : String) : Bool :=
  pre.toList.isPrefixOf s.toList

/-- `authHeader.split(' ')[1]`: the characters strictly between the first
space and the following space (or the end of the string). -/
def secondSpaceField (h : String) : String :=
  String.mk (((h.toList.dropWhile (fun c => c != ' ')).drop 1).takeWhile
    (fun c => c != ' '))

/-- Shallow embedding of `authenticate` from `src/middleware/auth.js`.
`verifyToken` (in `src/utils/jwt.js`, not claim-relevant beyond its
interface) is a parameter returning `Except ε TokenPayload`; an `error`
models the exception thrown on an expired or tampered token, and the
single `catch` of the middleware maps every such error — whatever data
`ε` carries — to the same 401 response. -/
def authenticate {ε : Type} (verifyToken : String → Except ε TokenPayload)
    (db : List Account) (authHeader : Option String) : AuthResult :=
  match authHeader with
  | none => .unauthenticated ("Token de autenticação não fornecido")
  | some h =>
    if ¬ strStartsWith h ("Bearer ") then
      .unauthenticated ("Token de autenticação não fornecido")
    else
      match verifyToken (secondSpaceField h) with
      | .error _ => .unauthenticated ("Token inválido ou expirado")
      | .ok decoded =>
        match db.find? (fun u => u.id == decoded.userId) with
        | none => .unauthenticated ("Usuário não encontrado")
        | some u => .authenticated ⟨u, u.id, u.role⟩

/-- C6: the authentication gate responds 401 without invoking the
downstream handler (the `authenticated` constructor is the only one that
calls `next()`) when the bearer header is absent or malformed, when token
verification fails — with the same response for every failure value, so
no distinction is leaked — or when no account matches the decoded
subject id; on success it attaches the account, its id and its role. -/
theorem authenticate_contract {ε : Type}
    (verifyToken : String → Except ε TokenPayload)
    (db : List Account) (header : Option String) :
    (header = none →
      authenticate verifyToken db header
        = .unauthenticated ("Token de autenticação não fornecido")) ∧
    (∀ h, header = some h → strStartsWith h ("Bearer ") = false →
      authenticate verifyToken db header
        = .unauthenticated ("Token de autenticação não fornecido")) ∧
    (∀ h e, header = some h → strStartsWith h ("Bearer ") = true →
      verifyToken (secondSpaceField h) = .error e →
      authenticate verifyToken db header
        = .unauthenticated ("Token inválido ou expirado")) ∧
    (∀ h d, header = some h → strStartsWith h ("Bearer ") = true →
      verifyToken (secondSpaceField h) = .ok d →
      db.find? (fun u => u.id == d.userId) = none →
      authenticate verifyToken db header
        = .unauthenticated ("Usuário não encontrado")) ∧
    (∀ h d u, header = some h → strStartsWith h ("Bearer ") = true →
      verifyToken (secondSpaceField h) = .ok d →
      db.find? (fun v => v.id == d.userId) = some u →
      authenticate verifyToken db header = .authenticated ⟨u, u.id, u.role⟩) := by
  refine ⟨fun hn => ?_, fun h hh hb => ?_, fun h e hh hb hv => ?_,
    fun h d hh hb hv hu => ?_, fun h d u hh hb hv hu => ?_⟩
  · subst hn; rfl
  · subst hh; simp [authenticate, hb]
  · subst hh; simp [authenticate, hb, hv]
  · subst hh; simp [authenticate, hb, hv, hu]
  · subst hh; simp [authenticate, hb, hv, hu]

/-- Witness for C6: a well-formed bearer header whose token fails
verification yields the generic invalid-token 401. -/
theorem authenticate_contract_witness :
    authenticate (fun _ => Except.error (0 : Nat)) ([] : List Account)
        (some ("Bearer abc"))
      = .unauthenticated ("Token inválido ou expirado") :=
  (authenticate_contract (fun _ => Except.error (0 : Nat)) []
      (some ("Bearer abc"))).2.2.1 ("Bearer abc") 0 rfl (by decide) rfl

/-! ## Auth controller: login

`login` from the auth controller (`src/domains/auth/auth.controller.js`,
present in the tree as an unnamed source file). -/

/-- JavaScript falsiness of a request-body string field, as tested by
`validateRequiredFields` (`!data[field]`): absent or empty. -/
def falsy (o : Option String) : Bool :=
  o.isNone || o == some ("")

/-- `validateRequiredFields(data, requiredFields).missing`: the names of
the required fields whose values are falsy. -/
def requiredMissing (fields : List (String × Option String)) : List String :=
  (fields.filter (fun f => falsy f.2)).map (fun f => f.1)

inductive LoginResult
  | missingFields (missing : List String)
  | unauthorized (message : String)
  | ok (user : Account)
deriving DecidableEq, Repr

/-- Shallow embedding of `login`.  `bcrypt.compare` is the parameter
`compare` (password first, stored hash second); token generation does not
affect which branch is taken and is omitted from the result. -/
def login (compare : String → String → Bool) (db : List Account)
    (email password : Option String) : LoginResult :=
  if requiredMissing [(("email" : String), email), ("password", password)] ≠ [] then
    .missingFields (requiredMissing [(("email" : String), email), ("password", password)])
  else match db.find? (fun u => u.email == email.getD ("")) with
    | none => .unauthorized ("Email ou senha incorretos")
    | some user =>
      if ¬ compare (password.getD ("")) user.passwordHash then
        .unauthorized ("Email ou senha incorretos")
      else .ok user

/-- Both login failure modes produce the same fixed 401 response. -/
lemma login_fail_eq (compare : String → String → Bool) (db : List Account)
    (email password : Option String)
    (he : falsy email = false) (hp : falsy password = false)
    (hfail : db.find? (fun u => u.email == email.getD ("")) = none ∨
      ∃ u, db.find? (fun v => v.email == email.getD ("")) = some u ∧
        compare (password.getD ("")) u.passwordHash = false) :
    login compare db email password
      = .unauthorized ("Email ou senha incorretos") := by
  have hmiss : requiredMissing
      [(("email" : String), email), ("password", password)] = [] := by
    simp [requiredMissing, he, hp]
  rcases hfail with hn | ⟨u, hu, hcmp⟩
  · simp [login, hmiss, hn]
  · simp [login, hmiss, hu, hcmp]

/-- C7: every failing login — unknown email, or known email with a
non-matching password — yields the same 401 response with the same
generic message, so the two failure runs are indistinguishable to the
caller and do not reveal whether the email exists. -/
theorem login_failures_indistinguishable
    (compare : String → String → Bool) (db : List Account)
    (email password : Option String)
    (he : falsy email = false) (hp : falsy password = false) :
    (db.find? (fun u => u.email == email.getD ("")) = none →
      login compare db email password
        = .unauthorized ("Email ou senha incorretos")) ∧
    (∀ u, db.find? (fun v => v.email == email.getD ("")) = some u →
      compare (password.getD ("")) u.passwordHash = false →
      login compare db email password
        = .unauthorized ("Email ou senha incorretos")) ∧
    (∀ (compare' : String → String → Bool) (db' : List Account)
        (email' password' : Option String),
      falsy email' = false → falsy password' = false →
      (db'.find? (fun u => u.email == email'.getD ("")) = none ∨
        ∃ u, db'.find? (fun v => v.email == email'.getD ("")) = some u ∧
          compare' (password'.getD ("")) u.passwordHash = false) →
      (db.find? (fun u => u.email == email.getD ("")) = none ∨
        ∃ u, db.find? (fun v => v.email == email.getD ("")) = some u ∧
          compare (password.getD ("")) u.passwordHash = false) →
      login compare db email password
        = login compare' db' email' password') := by
  refine ⟨fun hn => login_fail_eq compare db email password he hp (Or.inl hn),
    fun u hu hcmp =>
      login_fail_eq compare db email password he hp (Or.inr ⟨u, hu, hcmp⟩),
    fun compare' db' email' password' he' hp' hfail' hfail =>
      (login_fail_eq compare db email password he hp hfail).trans
        (login_fail_eq compare' db' email' password' he' hp' hfail').symm⟩

/-- Witness for C7: an empty account store rejects a login with the
generic message. -/
theorem login_failures_indistinguishable_witness :
    login (fun _ _ => false) [] (some ("a@b.co")) (some ("x"))
      = .unauthorized ("Email ou senha incorretos") :=
  (login_failures_indistinguishable (fun _ _ => false) [] (some ("a@b.co"))
      (some ("x")) (by decide) (by decide)).1 rfl

/-! ## Auth controller: register -/

/-- Splitting a character list at every occurrence of a separator
character; the character-level counterpart of the split the email regex
performs at `@`. -/
def splitOnChar (c : Char) : List Char → List (List Char)
  | [] => [[]]
  | x :: xs =>
    let rest := splitOnChar c xs
    if x == c then [] :: rest
    else match rest with
      | [] => [[x]]
      | r :: rs => (x :: r) :: rs

/-- `isValidEmail` from `src/utils/validation.js`: the anchored regex
`^[^\s@]+@[^\s@]+\.[^\s@]+$`.  A string matches exactly when it has a
single `@`, a nonempty whitespace-free part before it, and a
whitespace-free part after it containing a dot that is neither its first
nor its last character (`[^\s@]` may itself match a dot, so only an
interior dot is required).  Whitespace is Lean's `Char.isWhitespace`,
matching the regex class `\s` on the inputs used here. -/
def isValidEmail (s : String) : Bool :=
  match splitOnChar '@' s.toList with
  | [a, m] =>
      !a.isEmpty && a.all (fun c => !c.isWhitespace)
        && m.all (fun c => !c.isWhitespace)
        && (m.drop 1).dropLast.contains '.'
  | _ => false

/-- `isValidPassword` from `src/utils/validation.js`:
`password && password.length >= 6`. -/
def isValidPassword (p : String) : Bool :=
  p != ("") && decide (6 ≤ p.length)

/-- `['MOTHER', 'COLLABORATOR'].includes(role)`. -/
def validRoles : List String := ["MOTHER", "COLLABORATOR"]

/-- The registration request body (claim-relevant fields). -/
structure RegisterRequest where
  email : Option String
  password : Option String
  role : Option String
  fullName : Option String
  profession : Option String
deriving DecidableEq, Repr

inductive RegisterOutcome
  | missingFields (missing : List String)
  | invalidEmail
  | invalidPassword
  | invalidRole
  | emailConflict
  | missingProfession
  | created (u : Account)
deriving DecidableEq, Repr

/-- Shallow embedding of `register`: required fields, email format,
password length and role are validated in order; then the duplicate-email
lookup rejects with 409; then the collaborator branch requires a
profession; finally the account is created with the hashed password
(`bcrypt.hash` is the parameter `hash`). -/
def register (hash : String → String) (db : List Account) (freshId : Nat)
    (r : RegisterRequest) : RegisterOutcome × List Account :=
  if requiredMissing [(("email" : String), r.email), ("password", r.password),
      ("role", r.role), ("fullName", r.fullName)] ≠ [] then
    (.missingFields (requiredMissing [(("email" : String), r.email),
      ("password", r.password), ("role", r.role), ("fullName", r.fullName)]), db)
  else if ¬ isValidEmail (r.email.getD ("")) then (.invalidEmail, db)
  else if ¬ isValidPassword (r.password.getD ("")) then (.invalidPassword, db)
  else if ¬ validRoles.contains (r.role.getD ("")) then (.invalidRole, db)
  else match db.find? (fun u => u.email == r.email.getD ("")) with
    | some _ => (.emailConflict, db)
    | none =>
      if r.role.getD ("") == ("COLLABORATOR") && falsy r.profession then
        (.missingProfession, db)
      else
        (.created ⟨freshId, r.email.getD (""),
            hash (r.password.getD ("")), r.role.getD ("")⟩,
         db ++ [⟨freshId, r.email.getD (""),
            hash (r.password.getD ("")), r.role.getD ("")⟩])

/-- C5 (counterexample): a request whose email duplicates an existing
account but whose password is too short is answered 400 (invalid
password), not 409 Conflict — the claim's "responds 409" fails for
requests that also fail an earlier validation.  (No account is created
either way.) -/
theorem register_duplicate_email_cex :
    (register (fun s => s) [⟨1, "a@b.co", "hash", "MOTHER"⟩] 2
        ⟨some ("a@b.co"), some ("123"), some ("MOTHER"), some ("X"), none⟩).1
      = .invalidPassword ∧
    (List.find? (fun u => u.email == ("a@b.co"))
        [(⟨1, "a@b.co", "hash", "MOTHER"⟩ : Account)]).isSome = true ∧
    RegisterOutcome.invalidPassword ≠ RegisterOutcome.emailConflict ∧
    (register (fun s => s) [⟨1, "a@b.co", "hash", "MOTHER"⟩] 2
        ⟨some ("a@b.co"), some ("123"), some ("MOTHER"), some ("X"), none⟩).2
      = [⟨1, "a@b.co", "hash", "MOTHER"⟩] := by
  decide

/-- `register` either leaves the store unchanged or appends one account
whose email no stored account has. -/
lemma register_db_cases (hash : String → String) (db : List Account)
    (freshId : Nat) (r : RegisterRequest) :
    (register hash db freshId r).2 = db ∨
    ∃ u : Account, (register hash db freshId r).2 = db ++ [u] ∧
      db.find? (fun a => a.email == u.email) = none := by
  unfold register
  split
  · exact Or.inl rfl
  · split
    · exact Or.inl rfl
    · split
      · exact Or.inl rfl
      · split
        · exact Or.inl rfl
        · split
          · exact Or.inl rfl
          · next hnone =>
              split
              · exact Or.inl rfl
              · exact Or.inr ⟨_, rfl, hnone⟩

/-- The no-two-accounts-share-an-email invariant is preserved by
`register`. -/
lemma register_preserves_unique_email (hash : String → String)
    (db : List Account) (freshId : Nat) (r : RegisterRequest)
    (hdb : db.Pairwise (fun a b => a.email ≠ b.email)) :
    ((register hash db freshId r).2).Pairwise
      (fun a b => a.email ≠ b.email) := by
  rcases register_db_cases hash db freshId r with h | ⟨u, h, hfind⟩
  · rw [h]; exact hdb
  · rw [h, List.pairwise_append]
    refine ⟨hdb, List.pairwise_singleton _ _, ?_⟩
    intro a ha b hb
    rw [List.mem_singleton] at hb
    subst hb
    simpa using List.find?_eq_none.mp hfind a ha

/-- C5 (amended): a registration request that passes field, email-format,
password and role validation and whose email already belongs to an
existing account is answered 409 Conflict with the store unchanged; and
in all cases `register` preserves the invariant that no two accounts
share an email. -/
theorem register_duplicate_email_conflict (hash : String → String)
    (db : List Account) (freshId : Nat) (r : RegisterRequest) (u : Account)
    (h1 : falsy r.email = false) (h2 : falsy r.password = false)
    (h3 : falsy r.role = false) (h4 : falsy r.fullName = false)
    (h5 : isValidEmail (r.email.getD ("")) = true)
    (h6 : isValidPassword (r.password.getD ("")) = true)
    (h7 : validRoles.contains (r.role.getD ("")) = true)
    (h8 : db.find? (fun a => a.email == r.email.getD ("")) = some u) :
    register hash db freshId r = (.emailConflict, db) ∧
    ∀ (hash' : String → String) (db' : List Account) (freshId' : Nat)
        (r' : RegisterRequest),
      db'.Pairwise (fun a b => a.email ≠ b.email) →
      ((register hash' db' freshId' r').2).Pairwise
        (fun a b => a.email ≠ b.email) := by
  constructor
  · have hmiss : requiredMissing [(("email" : String), r.email),
        ("password", r.password), ("role", r.role),
        ("fullName", r.fullName)] = [] := by
      simp [requiredMissing, h1, h2, h3, h4]
    simp [register, hmiss, h5, h6, h7, h8]
    simpa using h7
  · exact fun hash' db' freshId' r' hdb' =>
      register_preserves_unique_email hash' db' freshId' r' hdb'

/-- Witness for the amended C5 theorem: a duplicate-email, otherwise
valid request against a one-account store. -/
theorem register_duplicate_email_conflict_witness :
    register (fun s => s) [⟨1, "a@b.co", "hash", "MOTHER"⟩] 2
        ⟨some ("a@b.co"), some ("secret1"), some ("MOTHER"), some ("X"), none⟩
      = (.emailConflict, [⟨1, "a@b.co", "hash", "MOTHER"⟩]) ∧
    ∀ (hash' : String → String) (db' : List Account) (freshId' : Nat)
        (r' : RegisterRequest),
      db'.Pairwise (fun a b => a.email ≠ b.email) →
      ((register hash' db' freshId' r').2).Pairwise
        (fun a b => a.email ≠ b.email) :=
  register_duplicate_email_conflict (fun s => s)
    [⟨1, "a@b.co", "hash", "MOTHER"⟩] 2
    ⟨some ("a@b.co"), some ("secret1"), some ("MOTHER"), some ("X"), none⟩
    ⟨1, "a@b.co", "hash", "MOTHER"⟩
    (by decide) (by decide) (by decide) (by decide) (by decide) (by decide)
    (by decide) (by decide)

end Mamacita
